import Mathlib

/-!
# Verification of the document service (validation pipeline, file store, search)

Shallow embedding of the repository's document service:
`services/documents_services.py` (validation, storage, search) together with
the configuration in `app/common/settings.py`, the process-wide store in
`app/common/constants.py`, and the search endpoint in
`app/router/documents_router.py`.

Python strings are modelled as lists of characters (`PyStr`), raw bytes as
`List Nat`, and every external oracle (the `magic` MIME sniffer, the remote
generation backend) as an explicit function parameter.  Exceptions are
modelled by returning the final store together with an optional
`HTTPException`, which reflects that the global store mutation survives a
raised exception.
-/

/-- Python strings, modelled as their sequence of code points. -/
abbrev PyStr := List Char

/-- Bytes of a file body. -/
abbrev Bytes := List Nat

/-- Model of `fastapi.HTTPException(status_code, detail)`. -/
structure HTTPException where
  status_code : Nat
  detail : PyStr
  deriving DecidableEq, Repr

/-!
## Settings (`app/common/settings.py`)
-/

/-- The subset of `Settings` the document service reads
(`max_file_size`, `allowed_extensions`, `allowed_mime_types`),
with their default values. -/
structure Settings where
  max_file_size : Nat
  allowed_extensions : List PyStr
  allowed_mime_types : List PyStr
  deriving Repr

/-- The global `settings` instance with the defaults from
`app/common/settings.py` (no overriding environment is modelled). -/
def settings : Settings :=
  { max_file_size := 15 * 1024 * 1024
    allowed_extensions :=
      ["pdf".data, "docx".data, "txt".data, "doc".data, "md".data]
    allowed_mime_types :=
      [ "application/pdf".data
      , "text/plain".data
      , "application/msword".data
      , "application/vnd.openxmlformats-officedocument.wordprocessingml.document".data
      , "text/markdown".data
      , "text/x-markdown".data ] }

/-!
## Constants (`app/common/constants.py`)
-/

/-- The constant `user_uuid`: the process-wide session identifier.  In the source it is a
UUID generated at process start; its concrete value is irrelevant to every
claim, so it is modelled as a fixed opaque-looking token. -/
def user_uuid : PyStr := "8f2b1c4e-user-uuid".data

/-!
## The Project File Store

`PROJECT_FILE_STORE : dict[str, list[dict]]`, a process-wide dictionary from
session identifier to the ordered list of stored file records.  It is
modelled as an association list with dictionary update semantics.
-/

/-- One record appended by `store_project_files`:
`{'filename': ..., 'content': ..., 'mime_type': ...}`. -/
structure StoredFile where
  filename : PyStr
  content : Bytes
  mime_type : PyStr
  deriving DecidableEq, Repr

/-- The store: a dictionary from session id to list of stored files. -/
abbrev Store := List (PyStr × List StoredFile)

/-- Dictionary lookup (`d.get(k)` / `k in d`). -/
def Store.lookup : Store → PyStr → Option (List StoredFile)
  | [], _ => none
  | (k, v) :: rest, key => if k = key then some v else Store.lookup rest key

/-- Dictionary assignment `d[k] = v`: update in place if the key exists,
otherwise add the binding. -/
def Store.set : Store → PyStr → List StoredFile → Store
  | [], key, v => [(key, v)]
  | (k, w) :: rest, key, v =>
      if k = key then (key, v) :: rest else (k, w) :: Store.set rest key v

/-!
## Uploaded files

`fastapi.UploadFile`: a filename, a client-declared content type (which the
service never consults), the body bytes, the framework-reported `size`
attribute, and a read cursor.
-/

/-- An uploaded file handle. -/
structure UploadFile where
  filename : PyStr
  content_type : PyStr
  content : Bytes
  size : Nat
  pos : Nat
  deriving DecidableEq, Repr

/-- Model of `await file.read(n)`: return up to `n` bytes from the cursor and advance
the cursor by the number of bytes actually read. -/
def UploadFile.read (f : UploadFile) (n : Nat) : Bytes × UploadFile :=
  ((f.content.drop f.pos).take n,
   { f with pos := min (f.pos + n) f.content.length })

/-- Model of `await file.read()` with no argument: read everything from the cursor to
the end of the file. -/
def UploadFile.readAll (f : UploadFile) : Bytes × UploadFile :=
  (f.content.drop f.pos, { f with pos := f.content.length })

/-- Model of `await file.seek(n)`. -/
def UploadFile.seek (f : UploadFile) (n : Nat) : UploadFile :=
  { f with pos := n }

/-!
## DocumentsService (`services/documents_services.py`)

The `magic.from_buffer(..., mime=True)` sniffer is an external library and is
modelled as an oracle `sniff : Bytes → PyStr` passed to each function that
uses it.
-/

/-- Python `filename.split(".")`: split on every occurrence of the
separator; splitting the empty string yields `[""]`. -/
def pySplit (sep : Char) : PyStr → List PyStr
  | [] => [[]]
  | c :: cs =>
      if c = sep then [] :: pySplit sep cs
      else
        match pySplit sep cs with
        | [] => [[c]]
        | seg :: rest => (c :: seg) :: rest

/-- Model of `DocumentsService._validate_extension`:
`file_extension = filename.split(".")[-1].lower()`, then membership in
`settings.allowed_extensions`.  (`Char.toLower` agrees with Python `lower()`
on ASCII, which covers every configured extension.) -/
def _validate_extension (filename : PyStr) : Bool :=
  let file_extension := ((pySplit '.' filename).getLastD []).map Char.toLower
  settings.allowed_extensions.contains file_extension

/-- Model of `DocumentsService._validate_size`:
`file.size <= settings.max_file_size`. -/
def _validate_size (file : UploadFile) : Bool :=
  decide (file.size ≤ settings.max_file_size)

/-- Model of `DocumentsService._get_mime_type`: read the first 1 KiB from the cursor,
sniff it, seek back to the start, return the detected MIME type together
with the file handle in its new cursor state. -/
def _get_mime_type (sniff : Bytes → PyStr) (file : UploadFile) :
    PyStr × UploadFile :=
  let r := file.read 1024
  let detected_mime := sniff r.1
  (detected_mime, r.2.seek 0)

/-- Model of `DocumentsService.store_project_files`: ensure the session's entry
exists (creating it as `[]` if absent), read the full remaining content,
and append the record `{filename, content, mime_type}` to the session's
list.  Returns the updated store and the consumed file handle. -/
def store_project_files (store : Store) (file : UploadFile)
    (mime_type : PyStr) : Store × UploadFile :=
  let store1 :=
    if (store.lookup user_uuid).isNone then store.set user_uuid [] else store
  let r := file.readAll
  let prev := (store1.lookup user_uuid).getD []
  (store1.set user_uuid
     (prev ++ [{ filename := file.filename, content := r.1,
                 mime_type := mime_type }]),
   r.2)

/-- The body of the `for file in files` loop of
`DocumentsService.validate_documents`, for one file: the four checks in
source order (filename presence, extension, size, sniffed MIME type), each
raising its `HTTPException` and leaving the store untouched, and on success
the `store_project_files` side effect. -/
def validateFile (sniff : Bytes → PyStr) (store : Store) (file : UploadFile) :
    Store × Option HTTPException :=
  if file.filename.isEmpty then
    (store, some ⟨400, "Invalid file name".data⟩)
  else if !(_validate_extension file.filename) then
    (store, some ⟨415, "Unsupported file type: ".data ++ file.filename⟩)
  else if !(_validate_size file) then
    (store, some ⟨413, "File too large: ".data ++ file.filename⟩)
  else
    let r := _get_mime_type sniff file
    if !(settings.allowed_mime_types.contains r.1) then
      (store, some ⟨415, "Unsupported MIME type: ".data ++ r.1⟩)
    else
      ((store_project_files store r.2 r.1).1, none)

/-- The `for file in files` loop of `validate_documents`: process files in
order, stopping at the first raised exception; the store mutations made
before the exception persist. -/
def validateLoop (sniff : Bytes → PyStr) (store : Store) :
    List UploadFile → Store × Option HTTPException
  | [] => (store, none)
  | f :: rest =>
      match validateFile sniff store f with
      | (store1, none) => validateLoop sniff store1 rest
      | (store1, some e) => (store1, some e)

/-- Model of `DocumentsService.validate_documents`: reject an empty batch with
HTTP 400, otherwise run the per-file loop.  A `none` second component models
the method returning `True`; `some e` models the raised `HTTPException e`.
The first component is the Project File Store after the call. -/
def validate_documents (sniff : Bytes → PyStr) (store : Store)
    (files : List UploadFile) : Store × Option HTTPException :=
  if files.isEmpty then (store, some ⟨400, "No files uploaded".data⟩)
  else validateLoop sniff store files

/-!
## Search (`DocumentsService.search_individual_file`,
`DocumentsService.search_all_user_files`, router `search_store`)

The remote call `client.models.generate_content` is modelled by an oracle
`gen : GenRequest → PyStr` returning the response text; the request actually
issued is recorded so that "one remote call per file" is provable.
-/

/-- The data of one `generate_content` request as built by
`search_individual_file`: fixed model name, the query as `contents`, and the
file-search tool scoped to the service's cached store handle (which is
`None` until `ensure_store_exists` ran). -/
structure GenRequest where
  model : PyStr
  contents : PyStr
  file_search_store_names : List (Option PyStr)
  deriving DecidableEq, Repr

/-- One entry of the search response: `{"filename": ..., "snippet": ...}`. -/
structure SearchResult where
  filename : PyStr
  snippet : PyStr
  deriving DecidableEq, Repr

/-- Model of `DocumentsService.search_individual_file`: issue one generation request
(the request depends only on the query and the cached store handle) and pair
the record's filename with the response text.  Returns the issued request
together with the result dictionary. -/
def search_individual_file (gen : GenRequest → PyStr)
    (file_search_store_name : Option PyStr) (query : PyStr)
    (file_info : StoredFile) : GenRequest × SearchResult :=
  let req : GenRequest :=
    { model := "gemini-2.5-flash".data
      contents := query
      file_search_store_names := [file_search_store_name] }
  (req, { filename := file_info.filename, snippet := gen req })

/-- Model of `DocumentsService.search_all_user_files`: loop over the records, calling
`search_individual_file` for each; the returned dictionary always has two
keys, so the `if result:` truthiness guard always appends.  The first
component is the trace of issued remote requests. -/
def search_all_user_files (gen : GenRequest → PyStr)
    (file_search_store_name : Option PyStr) (query : PyStr) :
    List StoredFile → List GenRequest × List SearchResult
  | [] => ([], [])
  | f :: rest =>
      let r := search_individual_file gen file_search_store_name query f
      let rs := search_all_user_files gen file_search_store_name query rest
      (r.1 :: rs.1, r.2 :: rs.2)

/-- The router's `POST /documents/search` handler (`search_store` in
`app/router/documents_router.py`): 400 on empty query, then 400 on empty
project id, then 404 when `PROJECT_FILE_STORE.get(project_id)` is missing or
empty, then the per-file search.  (The oracle `gen` is total, so the
`except`-to-500 wrapper is never exercised in the model.) -/
def search_store (gen : GenRequest → PyStr)
    (file_search_store_name : Option PyStr) (query : PyStr)
    (project_id : PyStr) (store : Store) :
    Except HTTPException (List SearchResult) :=
  if query.isEmpty then
    .error ⟨400, "Query cannot be empty".data⟩
  else if project_id.isEmpty then
    .error ⟨400, "Project ID is required".data⟩
  else if ((store.lookup project_id).getD []).isEmpty then
    .error ⟨404, "No files found for the given project ID".data⟩
  else
    .ok (search_all_user_files gen file_search_store_name query
          ((store.lookup project_id).getD [])).2

/-!
## Specification-side vocabulary
-/

/-- The header the pipeline sniffs for `file`: the first 1 KiB from the
current cursor (the cursor is `0` for a fresh upload). -/
def headerOf (file : UploadFile) : Bytes :=
  (file.content.drop file.pos).take 1024

/-- The MIME type `_get_mime_type` detects for `file` under oracle `sniff`. -/
def sniffedMime (sniff : Bytes → PyStr) (file : UploadFile) : PyStr :=
  sniff (headerOf file)

/-- A file passes all four per-file checks of `validate_documents`. -/
def fileOk (sniff : Bytes → PyStr) (file : UploadFile) : Bool :=
  !file.filename.isEmpty && _validate_extension file.filename &&
    _validate_size file &&
    settings.allowed_mime_types.contains (sniffedMime sniff file)

/-- The exception `validate_documents` raises for a failing file: the first
check that fails, in source order, determines status code and message. -/
def fileError (sniff : Bytes → PyStr) (file : UploadFile) : HTTPException :=
  if file.filename.isEmpty then ⟨400, "Invalid file name".data⟩
  else if !(_validate_extension file.filename) then
    ⟨415, "Unsupported file type: ".data ++ file.filename⟩
  else if !(_validate_size file) then
    ⟨413, "File too large: ".data ++ file.filename⟩
  else ⟨415, "Unsupported MIME type: ".data ++ sniffedMime sniff file⟩

/-- The record `validate_documents` appends for a passing file: the original
filename, the full body (the cursor was reset before the storing read), and
the sniffed MIME type. -/
def storedOf (sniff : Bytes → PyStr) (file : UploadFile) : StoredFile :=
  { filename := file.filename
    content := file.content
    mime_type := sniffedMime sniff file }

/-- A constant sniffing oracle used for concrete witnesses. -/
def sniffPdf : Bytes → PyStr := fun _ => "application/pdf".data

/-- Every key present in the store is bound to a non-empty list. -/
def StoreWF (s : Store) : Prop :=
  ∀ k l, s.lookup k = some l → l ≠ []

/-!
## Concrete inputs for witnesses
-/

/-- A small valid PDF upload (body bytes spell `%PDF`). -/
def wfile : UploadFile :=
  { filename := "report.pdf".data
    content_type := "application/octet-stream".data
    content := [37, 80, 68, 70]
    size := 4
    pos := 0 }

/-- An upload with a disallowed extension. -/
def wexe : UploadFile :=
  { filename := "x.exe".data
    content_type := "application/octet-stream".data
    content := [77, 90]
    size := 2
    pos := 0 }

/-- An upload whose dotless filename is not an allowed extension. -/
def wdotless : UploadFile :=
  { filename := "readme".data
    content_type := "text/plain".data
    content := [104, 105]
    size := 2
    pos := 0 }

/-- An upload exactly at the size ceiling. -/
def wmax : UploadFile :=
  { filename := "big.pdf".data
    content_type := "application/pdf".data
    content := [37, 80, 68, 70]
    size := 15 * 1024 * 1024
    pos := 0 }

/-- An upload one byte over the size ceiling. -/
def wover : UploadFile :=
  { filename := "big.pdf".data
    content_type := "application/pdf".data
    content := [37, 80, 68, 70]
    size := 15 * 1024 * 1024 + 1
    pos := 0 }

/-- A sniffer that answers `application/pdf` only for `wfile`'s header and
an unallowed type everywhere else (used to witness that a rejected file is
never sniffed). -/
def sniffSpiky : Bytes → PyStr := fun b =>
  if b = [37, 80, 68, 70] then ("application/pdf".data)
  else ("image/jpeg".data)

example : _validate_extension ("report.PDF".data) = true := by decide
example : _validate_extension ("x.exe".data) = false := by decide
example : _validate_extension ("pdf".data) = true := by decide
example : _validate_extension ("archive.tar.gz".data) = false := by decide

/-!
## Helper lemmas: store dictionary operations
-/

/-- Looking up the key just assigned. -/
lemma Store.lookup_set_self (s : Store) (k : PyStr) (v : List StoredFile) :
    (s.set k v).lookup k = some v := by
  induction s with
  | nil => simp [Store.set, Store.lookup]
  | cons hd tl ih =>
      obtain ⟨k', v'⟩ := hd
      by_cases h : k' = k
      · simp [Store.set, Store.lookup, h]
      · simp [Store.set, Store.lookup, h, ih]

/-- Assignment leaves every other key's binding unchanged. -/
lemma Store.lookup_set_ne (s : Store) {k k' : PyStr} (v : List StoredFile)
    (h : k' ≠ k) : (s.set k v).lookup k' = s.lookup k' := by
  induction s with
  | nil => simp [Store.set, Store.lookup, Ne.symm h]
  | cons hd tl ih =>
      obtain ⟨k'', v''⟩ := hd
      by_cases hk : k'' = k
      · subst hk
        simp [Store.set, Store.lookup, Ne.symm h]
      · simp only [Store.set, if_neg hk]
        by_cases hk' : k'' = k'
        · simp [Store.lookup, hk']
        · simp [Store.lookup, hk', ih]

/-- Effect of `store_project_files` on the active session's entry: the
record `{filename, content-from-cursor, mime}` is appended (the entry is
created first when absent). -/
lemma store_project_files_lookup_user (store : Store) (f : UploadFile)
    (m : PyStr) :
    ((store_project_files store f m).1).lookup user_uuid =
      some ((store.lookup user_uuid).getD [] ++
        [{ filename := f.filename, content := f.content.drop f.pos,
           mime_type := m }]) := by
  unfold store_project_files UploadFile.readAll
  cases hl : store.lookup user_uuid with
  | none => simp [hl, Store.lookup_set_self]
  | some l => simp [hl, Store.lookup_set_self]

/-- The function `store_project_files` touches no other session's entry. -/
lemma store_project_files_lookup_other (store : Store) (f : UploadFile)
    (m : PyStr) {k : PyStr} (h : k ≠ user_uuid) :
    ((store_project_files store f m).1).lookup k = store.lookup k := by
  unfold store_project_files UploadFile.readAll
  cases hl : store.lookup user_uuid with
  | none => simp [hl, Store.lookup_set_ne _ _ h]
  | some l => simp [hl, Store.lookup_set_ne _ _ h]

/-!
## Helper lemmas: one step of the validation loop
-/

/-- The function `_get_mime_type` computes the sniffed MIME of the first KiB after the
cursor and hands back the file with its cursor reset to `0`. -/
lemma _get_mime_type_eq (sniff : Bytes → PyStr) (f : UploadFile) :
    _get_mime_type sniff f = (sniffedMime sniff f, f.seek 0) := rfl

/-- A file passing all four checks is stored (after the cursor reset) with
its sniffed MIME type, and no exception is raised. -/
lemma validateFile_of_ok {sniff : Bytes → PyStr} {f : UploadFile}
    (store : Store) (h : fileOk sniff f = true) :
    validateFile sniff store f =
      ((store_project_files store (f.seek 0) (sniffedMime sniff f)).1,
       none) := by
  simp only [fileOk, Bool.and_eq_true, Bool.not_eq_true'] at h
  obtain ⟨⟨⟨h1, h2⟩, h3⟩, h4⟩ := h
  have h4m : sniffedMime sniff f ∈ settings.allowed_mime_types := by
    simpa using h4
  simp [validateFile, h1, h2, h3, h4m, _get_mime_type_eq]

/-- A file failing some check raises the exception of its first failing
check and leaves the store untouched. -/
lemma validateFile_of_bad {sniff : Bytes → PyStr} {f : UploadFile}
    (store : Store) (h : fileOk sniff f = false) :
    validateFile sniff store f = (store, some (fileError sniff f)) := by
  unfold validateFile fileError
  by_cases h1 : f.filename.isEmpty
  · simp [h1]
  · by_cases h2 : _validate_extension f.filename
    · by_cases h3 : _validate_size f
      · by_cases h4 :
            settings.allowed_mime_types.contains (sniffedMime sniff f)
        · exfalso
          have h4m : sniffedMime sniff f ∈ settings.allowed_mime_types := by
            simpa using h4
          simp [fileOk, h1, h2, h3, h4m] at h
        · have h4m : sniffedMime sniff f ∉ settings.allowed_mime_types := by
            simpa using h4
          simp [h1, h2, h3, _get_mime_type_eq, h4m]
      · simp [h1, h2, Bool.eq_false_iff.mpr h3]
    · simp [h1, Bool.eq_false_iff.mpr h2]

/-- Store shape after validating one passing file: the session's list gains
exactly the record `storedOf sniff f`. -/
lemma validateFile_ok_lookup_user {sniff : Bytes → PyStr} {f : UploadFile}
    (store : Store) (h : fileOk sniff f = true) :
    (validateFile sniff store f).1.lookup user_uuid =
      some ((store.lookup user_uuid).getD [] ++ [storedOf sniff f]) := by
  rw [validateFile_of_ok store h]
  simp [store_project_files_lookup_user, storedOf, UploadFile.seek]

/-- Validating one passing file touches no other session's entry. -/
lemma validateFile_ok_lookup_other {sniff : Bytes → PyStr} {f : UploadFile}
    (store : Store) (h : fileOk sniff f = true) {k : PyStr}
    (hk : k ≠ user_uuid) :
    (validateFile sniff store f).1.lookup k = store.lookup k := by
  rw [validateFile_of_ok store h]
  simp [store_project_files_lookup_other _ _ _ hk]

/-!
## Helper lemmas: the whole loop
-/

/-- A run of the loop over an all-passing batch: no exception, the active
session's entry gains exactly the batch's records in order, and no other
entry changes. -/
lemma validateLoop_all_ok (sniff : Bytes → PyStr) (files : List UploadFile) :
    ∀ store : Store, files.all (fileOk sniff) = true →
      (validateLoop sniff store files).2 = none ∧
      (validateLoop sniff store files).1.lookup user_uuid =
        (if files.isEmpty then store.lookup user_uuid
         else some ((store.lookup user_uuid).getD [] ++
                    files.map (storedOf sniff))) ∧
      (∀ k, k ≠ user_uuid →
        (validateLoop sniff store files).1.lookup k = store.lookup k) := by
  induction files with
  | nil =>
      intro store _
      simp [validateLoop]
  | cons f rest ih =>
      intro store h
      rw [List.all_cons, Bool.and_eq_true] at h
      obtain ⟨hf, hrest⟩ := h
      have hstep := validateFile_of_ok store hf
      have hloop : validateLoop sniff store (f :: rest) =
          validateLoop sniff
            ((store_project_files store (f.seek 0) (sniffedMime sniff f)).1)
            rest := by
        simp [validateLoop, hstep]
      have hlk : ((store_project_files store (f.seek 0)
            (sniffedMime sniff f)).1).lookup user_uuid =
          some ((store.lookup user_uuid).getD [] ++ [storedOf sniff f]) := by
        simp [store_project_files_lookup_user, storedOf, UploadFile.seek]
      obtain ⟨ih1, ih2, ih3⟩ := ih _ hrest
      refine ⟨by rw [hloop]; exact ih1, ?_, ?_⟩
      · rw [hloop, ih2]
        cases rest with
        | nil => simp [hlk]
        | cons g gs => simp [hlk, List.append_assoc]
      · intro k hk
        rw [hloop, ih3 k hk]
        exact store_project_files_lookup_other _ _ _ hk

/-- The session entry after an all-passing run, in `getD` form (covers both
a present and an absent prior entry). -/
lemma validateLoop_all_ok_getD (sniff : Bytes → PyStr)
    (files : List UploadFile) (store : Store)
    (h : files.all (fileOk sniff) = true) :
    ((validateLoop sniff store files).1.lookup user_uuid).getD [] =
      (store.lookup user_uuid).getD [] ++ files.map (storedOf sniff) := by
  obtain ⟨-, h2, -⟩ := validateLoop_all_ok sniff files store h
  cases files with
  | nil => simp at h2; rw [h2]; simp
  | cons g gs => simp at h2; rw [h2]; simp

/-- Running the loop on `pre ++ bad :: post` where `pre` all pass and `bad`
fails: the raised exception is `bad`'s first failing check, and the final
store is exactly the store after processing `pre` (nothing from `bad` or
`post` is stored, nothing is rolled back). -/
lemma validateLoop_first_bad (sniff : Bytes → PyStr)
    (pre : List UploadFile) :
    ∀ (store : Store) (bad : UploadFile) (post : List UploadFile),
      pre.all (fileOk sniff) = true → fileOk sniff bad = false →
      validateLoop sniff store (pre ++ bad :: post) =
        ((validateLoop sniff store pre).1, some (fileError sniff bad)) := by
  induction pre with
  | nil =>
      intro store bad post _ hbad
      simp [validateLoop, validateFile_of_bad store hbad]
  | cons f rest ih =>
      intro store bad post h hbad
      rw [List.all_cons, Bool.and_eq_true] at h
      obtain ⟨hf, hrest⟩ := h
      have hstep := validateFile_of_ok store hf
      rw [List.cons_append]
      simp only [validateLoop, hstep]
      exact ih _ bad post hrest hbad

/-- The step `validateFile` consults the sniffer only on the file's header. -/
lemma validateFile_sniff_agree {sniff sniff' : Bytes → PyStr}
    (store : Store) (f : UploadFile)
    (h : sniff' (headerOf f) = sniff (headerOf f)) :
    validateFile sniff' store f = validateFile sniff store f := by
  simp only [validateFile, _get_mime_type_eq, sniffedMime, h]

/-- A file with a present filename but a disallowed extension is rejected
with the 415 unsupported-file-type exception, whatever the sniffer does and
whatever the file's size or content. -/
lemma validateFile_ext_fail {f : UploadFile} (sniff : Bytes → PyStr)
    (store : Store) (hname : f.filename.isEmpty = false)
    (hext : _validate_extension f.filename = false) :
    validateFile sniff store f =
      (store, some ⟨415, "Unsupported file type: ".data ++ f.filename⟩) := by
  simp [validateFile, hname, hext]

/-- On a batch whose first failure is a disallowed extension, the whole run
of the loop is independent of the sniffer's verdicts beyond the headers of
the earlier (passing) files: the offending file is never sniffed. -/
lemma validateLoop_sniff_agree (sniff sniff' : Bytes → PyStr)
    (pre : List UploadFile) :
    ∀ (store : Store) (bad : UploadFile) (post : List UploadFile),
      (∀ f ∈ pre, sniff' (headerOf f) = sniff (headerOf f)) →
      bad.filename.isEmpty = false →
      _validate_extension bad.filename = false →
      validateLoop sniff' store (pre ++ bad :: post) =
        validateLoop sniff store (pre ++ bad :: post) := by
  induction pre with
  | nil =>
      intro store bad post _ hname hext
      simp [validateLoop, validateFile_ext_fail sniff' store hname hext,
        validateFile_ext_fail sniff store hname hext]
  | cons f rest ih =>
      intro store bad post hagree hname hext
      have heq := validateFile_sniff_agree store f (hagree f (by simp))
      rw [List.cons_append]
      simp only [validateLoop, heq]
      cases hv : validateFile sniff store f with
      | mk store1 e =>
          cases e with
          | none =>
              exact ih store1 bad post
                (fun g hg => hagree g (by simp [hg])) hname hext
          | some err => rfl

/-!
## Helper lemmas: the store invariant
-/

/-- The empty store satisfies the invariant. -/
lemma StoreWF_nil : StoreWF [] := by
  intro k l hl
  simp [Store.lookup] at hl

/-- One step of the loop preserves the invariant: a failing file leaves the
store untouched, a passing file appends a record to the session's list
(which is therefore non-empty). -/
lemma StoreWF_validateFile {sniff : Bytes → PyStr} {store : Store}
    {f : UploadFile} (h : StoreWF store) :
    StoreWF (validateFile sniff store f).1 := by
  cases hok : fileOk sniff f with
  | false =>
      rw [validateFile_of_bad store hok]
      exact h
  | true =>
      intro k l hl
      by_cases hk : k = user_uuid
      · subst hk
        rw [validateFile_ok_lookup_user store hok] at hl
        cases hl
        simp
      · rw [validateFile_ok_lookup_other store hok hk] at hl
        exact h k l hl

/-- The whole loop preserves the invariant. -/
lemma StoreWF_validateLoop {sniff : Bytes → PyStr} (files : List UploadFile) :
    ∀ store : Store, StoreWF store →
      StoreWF (validateLoop sniff store files).1 := by
  induction files with
  | nil =>
      intro store h
      simpa [validateLoop] using h
  | cons f rest ih =>
      intro store h
      have hstep : StoreWF (validateFile sniff store f).1 :=
        StoreWF_validateFile h
      simp only [validateLoop]
      cases hv : validateFile sniff store f with
      | mk store1 e =>
          rw [hv] at hstep
          cases e with
          | none => exact ih store1 hstep
          | some err => exact hstep

/-!
## Helper lemmas: extension parsing and single-file runs
-/

/-- Splitting a string that does not contain the separator yields the whole
string as the single segment. -/
lemma pySplit_of_not_mem (sep : Char) (s : PyStr) (h : sep ∉ s) :
    pySplit sep s = [s] := by
  induction s with
  | nil => rfl
  | cons c cs ih =>
      have hc : ¬ c = sep := by
        intro hh
        exact h (by simp [hh])
      have hcs : sep ∉ cs := by
        intro hh
        exact h (by simp [hh])
      simp [pySplit, hc, ih hcs]

/-- On a dotless filename the extension check tests the whole lower-cased
filename against the allow-list. -/
lemma _validate_extension_no_dot (name : PyStr) (h : '.' ∉ name) :
    _validate_extension name =
      settings.allowed_extensions.contains (name.map Char.toLower) := by
  simp [_validate_extension, pySplit_of_not_mem '.' name h]

/-- A file passing name and extension checks but failing the size check is
rejected with the 413 oversize exception. -/
lemma validateFile_size_fail {f : UploadFile} (sniff : Bytes → PyStr)
    (store : Store) (hname : f.filename.isEmpty = false)
    (hext : _validate_extension f.filename = true)
    (hsize : _validate_size f = false) :
    validateFile sniff store f =
      (store, some ⟨413, "File too large: ".data ++ f.filename⟩) := by
  simp [validateFile, hname, hext, hsize]

/-- On a non-empty batch `validate_documents` is the loop. -/
lemma validate_documents_cons (sniff : Bytes → PyStr) (store : Store)
    (f : UploadFile) (rest : List UploadFile) :
    validate_documents sniff store (f :: rest) =
      validateLoop sniff store (f :: rest) := by
  simp [validate_documents]

/-!
## Claim theorems
-/

/-- C1 fails as literally stated: the empty batch vacuously satisfies
"every file passes all checks", yet `validate_documents` raises the 400
no-files exception instead of succeeding. -/
theorem C1_counterexample :
    ([] : List UploadFile).all (fileOk sniffPdf) = true ∧
    (validate_documents sniffPdf [] ([] : List UploadFile)).2 ≠ none := by
  exact ⟨rfl, by decide⟩

/-- C1 (amended: for every NON-EMPTY batch): if every file of a non-empty
batch has a non-empty filename, an allowed extension, size at most the
configured maximum, and a sniffed MIME type in the allowed list, then
`validate_documents` raises no exception and the Project File Store entry
for the active session grows by exactly the length of the batch, with the
new `StoredFile` records appended in batch order. -/
theorem C1_valid_batch_stores_all (sniff : Bytes → PyStr) (store : Store)
    (files : List UploadFile) (hne : files ≠ [])
    (hok : files.all (fileOk sniff) = true) :
    (validate_documents sniff store files).2 = none ∧
    (validate_documents sniff store files).1.lookup user_uuid =
      some ((store.lookup user_uuid).getD [] ++
        files.map (storedOf sniff)) ∧
    (((validate_documents sniff store files).1.lookup user_uuid).getD
        []).length =
      ((store.lookup user_uuid).getD []).length + files.length := by
  have hni : files.isEmpty = false := by
    cases files with
    | nil => exact absurd rfl hne
    | cons g gs => rfl
  have hgoal : validate_documents sniff store files =
      validateLoop sniff store files := by
    simp [validate_documents, hni]
  obtain ⟨h1, h2, h3⟩ := validateLoop_all_ok sniff files store hok
  rw [hni] at h2
  rw [hgoal]
  refine ⟨h1, by simpa using h2, ?_⟩
  rw [h2]
  simp

/-- Witness for C1: one small valid PDF upload into the empty store. -/
theorem C1_valid_batch_stores_all_witness :
    [wfile] ≠ [] ∧ [wfile].all (fileOk sniffPdf) = true ∧
    ((validate_documents sniffPdf [] [wfile]).2 = none ∧
     (validate_documents sniffPdf [] [wfile]).1.lookup user_uuid =
       some ((Store.lookup [] user_uuid).getD [] ++
         [wfile].map (storedOf sniffPdf)) ∧
     (((validate_documents sniffPdf [] [wfile]).1.lookup user_uuid).getD
         []).length =
       ((Store.lookup [] user_uuid).getD []).length + [wfile].length) :=
  ⟨by simp, by decide,
   C1_valid_batch_stores_all sniffPdf [] [wfile] (by simp) (by decide)⟩

/-- C2: when the file at index `k` is the first to fail a check,
`validate_documents` raises that file's corresponding exception, every file
before index `k` has been appended to the Project File Store and is still
there after the exception (no rollback), and no file at or after index `k`
is stored; other sessions' entries are untouched. -/
theorem C2_prefix_stored_no_rollback (sniff : Bytes → PyStr) (store : Store)
    (pre post : List UploadFile) (bad : UploadFile)
    (hpre : pre.all (fileOk sniff) = true)
    (hbad : fileOk sniff bad = false) :
    (validate_documents sniff store (pre ++ bad :: post)).2 =
      some (fileError sniff bad) ∧
    ((validate_documents sniff store
        (pre ++ bad :: post)).1.lookup user_uuid).getD [] =
      (store.lookup user_uuid).getD [] ++ pre.map (storedOf sniff) := by
  have hsplit : validate_documents sniff store (pre ++ bad :: post) =
      validateLoop sniff store (pre ++ bad :: post) := by
    cases pre with
    | nil => simp [validate_documents]
    | cons g gs => simp [validate_documents]
  rw [hsplit, validateLoop_first_bad sniff pre store bad post hpre hbad]
  exact ⟨rfl, validateLoop_all_ok_getD sniff pre store hpre⟩

/-- Witness for C2: a valid PDF before `x.exe`; the PDF is stored, the
batch fails with the extension exception of `x.exe`, the trailing file is
not stored. -/
theorem C2_prefix_stored_no_rollback_witness :
    [wfile].all (fileOk sniffPdf) = true ∧
    fileOk sniffPdf wexe = false ∧
    ((validate_documents sniffPdf [] ([wfile] ++ wexe :: [wdotless])).2 =
      some (fileError sniffPdf wexe) ∧
     ((validate_documents sniffPdf []
         ([wfile] ++ wexe :: [wdotless])).1.lookup user_uuid).getD [] =
       (Store.lookup [] user_uuid).getD [] ++
         [wfile].map (storedOf sniffPdf)) :=
  ⟨by decide, by decide,
   C2_prefix_stored_no_rollback sniffPdf [] [wfile] [wdotless] wexe
     (by decide) (by decide)⟩

/-- C3: if every file before `bad` passes all checks and `bad` has a
(non-empty) filename whose extension is not allowed, the batch fails with
the 415 unsupported-file-type exception naming `bad`'s filename — whatever
`bad`'s size, content and declared type are — and the whole run never
consults the MIME sniffer on anything but the earlier files' headers, so
`bad` is never sniffed. -/
theorem C3_ext_error_before_sniff (sniff : Bytes → PyStr) (store : Store)
    (pre post : List UploadFile) (bad : UploadFile)
    (hpre : pre.all (fileOk sniff) = true)
    (hname : bad.filename.isEmpty = false)
    (hext : _validate_extension bad.filename = false) :
    (validate_documents sniff store (pre ++ bad :: post)).2 =
      some ⟨415, "Unsupported file type: ".data ++ bad.filename⟩ ∧
    (validate_documents sniff store
        (pre ++ bad :: post)).2.map HTTPException.detail =
      some ("Unsupported file type: ".data ++ bad.filename) ∧
    (∀ sniff' : Bytes → PyStr,
      (∀ f ∈ pre, sniff' (headerOf f) = sniff (headerOf f)) →
      validate_documents sniff' store (pre ++ bad :: post) =
        validate_documents sniff store (pre ++ bad :: post)) := by
  have hbad : fileOk sniff bad = false := by
    simp [fileOk, hext]
  have herr : fileError sniff bad =
      ⟨415, "Unsupported file type: ".data ++ bad.filename⟩ := by
    simp [fileError, hname, hext]
  have hsplit : ∀ g : Bytes → PyStr,
      validate_documents g store (pre ++ bad :: post) =
        validateLoop g store (pre ++ bad :: post) := by
    intro g
    cases pre with
    | nil => simp [validate_documents]
    | cons x xs => simp [validate_documents]
  refine ⟨?_, ?_, ?_⟩
  · rw [hsplit, validateLoop_first_bad sniff pre store bad post hpre hbad]
    simpa using herr
  · rw [hsplit, validateLoop_first_bad sniff pre store bad post hpre hbad]
    simp [herr]
  · intro sniff' hagree
    rw [hsplit, hsplit]
    exact validateLoop_sniff_agree sniff sniff' pre store bad post hagree
      hname hext

/-- Witness for C3: `x.exe` after one valid PDF is rejected with 415, and a
sniffer that answers an unallowed type on everything except the PDF's
header gives the identical run (the rejected file is never sniffed). -/
theorem C3_ext_error_before_sniff_witness :
    [wfile].all (fileOk sniffPdf) = true ∧
    wexe.filename.isEmpty = false ∧
    _validate_extension wexe.filename = false ∧
    (validate_documents sniffPdf [] ([wfile] ++ wexe :: [])).2 =
      some ⟨415, "Unsupported file type: ".data ++ wexe.filename⟩ ∧
    validate_documents sniffSpiky [] ([wfile] ++ wexe :: []) =
      validate_documents sniffPdf [] ([wfile] ++ wexe :: []) :=
  ⟨by decide, by decide, by decide,
   (C3_ext_error_before_sniff sniffPdf [] [wfile] [] wexe (by decide)
      (by decide) (by decide)).1,
   (C3_ext_error_before_sniff sniffPdf [] [wfile] [] wexe (by decide)
      (by decide) (by decide)).2.2 sniffSpiky (by
        intro f hf
        simp only [List.mem_singleton] at hf
        subst hf
        decide)⟩

/-- C4: for a fresh file (cursor at 0), MIME detection sniffs exactly the
first 1024 bytes of the content, is unaffected by the client-declared
content type, restores the cursor to 0, and the subsequent full read done
when storing yields the entire body from the start. -/
theorem C4_sniff_reads_header_restores_cursor (sniff : Bytes → PyStr)
    (f : UploadFile) (h : f.pos = 0) :
    (_get_mime_type sniff f).1 = sniff (f.content.take 1024) ∧
    (∀ ct : PyStr,
      (_get_mime_type sniff { f with content_type := ct }).1 =
        (_get_mime_type sniff f).1) ∧
    ((_get_mime_type sniff f).2).pos = 0 ∧
    (((_get_mime_type sniff f).2).readAll).1 = f.content ∧
    (∀ (store : Store) (m : PyStr),
      ((store_project_files store (_get_mime_type sniff f).2 m).1).lookup
          user_uuid =
        some ((store.lookup user_uuid).getD [] ++
          [{ filename := f.filename, content := f.content,
             mime_type := m }])) := by
  refine ⟨?_, ?_, ?_, ?_, ?_⟩
  · simp [_get_mime_type_eq, sniffedMime, headerOf, h]
  · intro ct
    simp [_get_mime_type_eq, sniffedMime, headerOf]
  · simp [_get_mime_type_eq, UploadFile.seek]
  · simp [_get_mime_type_eq, UploadFile.seek, UploadFile.readAll]
  · intro store m
    simp [_get_mime_type_eq, UploadFile.seek, store_project_files_lookup_user]

/-- Witness for C4 at the concrete PDF upload. -/
theorem C4_sniff_reads_header_restores_cursor_witness :
    wfile.pos = 0 ∧
    (_get_mime_type sniffPdf wfile).1 = sniffPdf (wfile.content.take 1024) ∧
    (_get_mime_type sniffPdf
        { wfile with content_type := "image/png".data }).1 =
      (_get_mime_type sniffPdf wfile).1 ∧
    ((_get_mime_type sniffPdf wfile).2).pos = 0 ∧
    (((_get_mime_type sniffPdf wfile).2).readAll).1 = wfile.content ∧
    ((store_project_files [] (_get_mime_type sniffPdf wfile).2
        ("application/pdf".data)).1).lookup user_uuid =
      some ((Store.lookup [] user_uuid).getD [] ++
        [{ filename := wfile.filename, content := wfile.content,
           mime_type := "application/pdf".data }]) :=
  ⟨rfl,
   (C4_sniff_reads_header_restores_cursor sniffPdf wfile rfl).1,
   (C4_sniff_reads_header_restores_cursor sniffPdf wfile rfl).2.1
     ("image/png".data),
   (C4_sniff_reads_header_restores_cursor sniffPdf wfile rfl).2.2.1,
   (C4_sniff_reads_header_restores_cursor sniffPdf wfile rfl).2.2.2.1,
   (C4_sniff_reads_header_restores_cursor sniffPdf wfile rfl).2.2.2.2 []
     ("application/pdf".data)⟩

/-- C5: the size check passes exactly when `size ≤ max_file_size`, the
configured maximum defaults to `15 * 1024 * 1024` bytes, a file exactly at
the ceiling passes, and (when name and extension pass) a file one byte over
fails the batch with the 413 oversize exception naming the file. -/
theorem C5_size_boundary (sniff : Bytes → PyStr) (store : Store) :
    (∀ f : UploadFile,
      _validate_size f = true ↔ f.size ≤ settings.max_file_size) ∧
    settings.max_file_size = 15 * 1024 * 1024 ∧
    (∀ f : UploadFile, f.size = 15 * 1024 * 1024 →
      _validate_size f = true) ∧
    (∀ f : UploadFile, f.filename.isEmpty = false →
      _validate_extension f.filename = true →
      f.size = 15 * 1024 * 1024 + 1 →
      (validate_documents sniff store [f]).2 =
        some ⟨413, "File too large: ".data ++ f.filename⟩ ∧
      (validate_documents sniff store [f]).2.map HTTPException.detail =
        some ("File too large: ".data ++ f.filename)) := by
  refine ⟨?_, rfl, ?_, ?_⟩
  · intro f
    simp [_validate_size]
  · intro f h
    simp [_validate_size, h, settings]
  · intro f h1 h2 h3
    have hsize : _validate_size f = false := by
      simp [_validate_size, h3, settings]
    rw [validate_documents_cons]
    simp [validateLoop, validateFile_size_fail sniff store h1 h2 hsize]

/-- Witness for C5: `wmax` (exactly 15 MiB) passes the size check; `wover`
(one byte more) fails the batch with the 413 exception. -/
theorem C5_size_boundary_witness :
    wmax.size = 15 * 1024 * 1024 ∧
    _validate_size wmax = true ∧
    wover.filename.isEmpty = false ∧
    _validate_extension wover.filename = true ∧
    wover.size = 15 * 1024 * 1024 + 1 ∧
    (validate_documents sniffPdf [] [wover]).2 =
      some ⟨413, "File too large: ".data ++ wover.filename⟩ :=
  ⟨rfl,
   (C5_size_boundary sniffPdf []).2.2.1 wmax rfl,
   by decide, by decide, rfl,
   ((C5_size_boundary sniffPdf []).2.2.2 wover (by decide) (by decide)
      rfl).1⟩

/-- C6: `search_all_user_files` issues exactly one remote generation call
per stored record and returns exactly one `{filename, snippet}` result per
record, in input order, each result's filename being that record's
filename; on the empty list it returns the empty result list (and, being a
total function of its inputs, raises nothing). -/
theorem C6_search_one_result_per_file (gen : GenRequest → PyStr)
    (name : Option PyStr) (query : PyStr) (files : List StoredFile) :
    (search_all_user_files gen name query files).1 =
      files.map (fun fi => (search_individual_file gen name query fi).1) ∧
    (search_all_user_files gen name query files).2 =
      files.map (fun fi => (search_individual_file gen name query fi).2) ∧
    (search_all_user_files gen name query files).1.length = files.length ∧
    (search_all_user_files gen name query files).2.length = files.length ∧
    (search_all_user_files gen name query files).2.map
        SearchResult.filename = files.map StoredFile.filename ∧
    search_all_user_files gen name query [] = ([], []) := by
  induction files with
  | nil => simp [search_all_user_files]
  | cons f rest ih =>
      obtain ⟨ih1, ih2, ih3, ih4, ih5, -⟩ := ih
      refine ⟨?_, ?_, ?_, ?_, ?_, rfl⟩ <;>
        simp [search_all_user_files, ih1, ih2, ih3, ih4, ih5,
          search_individual_file]

/-- C7: an empty query on `POST /documents/search` yields the 400
empty-query error for every supplied project id and every store state: the
empty-query check precedes the project-id and stored-files checks. -/
theorem C7_empty_query_always_400 (gen : GenRequest → PyStr)
    (name : Option PyStr) (project_id : PyStr) (store : Store) :
    search_store gen name [] project_id store =
      Except.error ⟨400, "Query cannot be empty".data⟩ := by
  simp [search_store]

/-- C8: the store invariant "every present key maps to a non-empty list"
holds of the initial empty store and is preserved by `validate_documents`
(the only operation that mutates the Project File Store): an entry is
created only in the same `store_project_files` call that appends a record
to it, an empty batch fails before any mutation, and nothing removes
records. -/
theorem C8_present_keys_nonempty :
    StoreWF ([] : Store) ∧
    (∀ (sniff : Bytes → PyStr) (store : Store) (files : List UploadFile),
      StoreWF store → StoreWF (validate_documents sniff store files).1) := by
  refine ⟨StoreWF_nil, ?_⟩
  intro sniff store files h
  by_cases hfe : files.isEmpty
  · simpa [validate_documents, hfe] using h
  · simpa [validate_documents, hfe] using
      StoreWF_validateLoop files store h

/-- Witness for C8: the invariant after validating one valid PDF into the
initially empty store. -/
theorem C8_present_keys_nonempty_witness :
    StoreWF (validate_documents sniffPdf [] [wfile]).1 :=
  C8_present_keys_nonempty.2 sniffPdf [] [wfile] StoreWF_nil

/-- C9: the remote generation request built by `search_individual_file` is
the same for any two stored records (it depends only on the query and the
cached store handle); only the returned result's `filename` field comes
from the record, so records differing only in content lead to identical
remote calls and identical snippets. -/
theorem C9_request_independent_of_record (gen : GenRequest → PyStr)
    (name : Option PyStr) (query : PyStr) (f1 f2 : StoredFile) :
    (search_individual_file gen name query f1).1 =
      (search_individual_file gen name query f2).1 ∧
    ((search_individual_file gen name query f1).2).snippet =
      ((search_individual_file gen name query f2).2).snippet ∧
    ((search_individual_file gen name query f1).2).filename =
      f1.filename ∧
    (search_individual_file gen name query f1).1 =
      { model := "gemini-2.5-flash".data, contents := query,
        file_search_store_names := [name] } :=
  ⟨rfl, rfl, rfl, rfl⟩

/-- C10: on a dotless filename the extension check compares the entire
lower-cased filename against the allow-list; the file named exactly `pdf`
passes the check, and a file with a dotless filename whose lower-casing is
not an allowed extension fails the batch with the 415 unsupported-file-type
exception. -/
theorem C10_dotless_extension_check (sniff : Bytes → PyStr) (store : Store) :
    _validate_extension ("pdf".data) = true ∧
    (∀ name : PyStr, '.' ∉ name →
      _validate_extension name =
        settings.allowed_extensions.contains (name.map Char.toLower)) ∧
    (∀ f : UploadFile, f.filename.isEmpty = false → '.' ∉ f.filename →
      settings.allowed_extensions.contains
        (f.filename.map Char.toLower) = false →
      (validate_documents sniff store [f]).2 =
        some ⟨415, "Unsupported file type: ".data ++ f.filename⟩) := by
  refine ⟨by decide, fun name h => _validate_extension_no_dot name h, ?_⟩
  intro f h1 h2 h3
  have hext : _validate_extension f.filename = false := by
    rw [_validate_extension_no_dot f.filename h2, h3]
  rw [validate_documents_cons]
  simp [validateLoop, validateFile_ext_fail sniff store h1 hext]

/-- Witness for C10: the dotless name `txt` is compared whole against the
allow-list, and the dotless file `readme` is rejected with 415. -/
theorem C10_dotless_extension_check_witness :
    _validate_extension ("pdf".data) = true ∧
    ('.' ∉ "txt".data ∧
     _validate_extension ("txt".data) =
       settings.allowed_extensions.contains
         ("txt".data.map Char.toLower)) ∧
    (wdotless.filename.isEmpty = false ∧ '.' ∉ wdotless.filename ∧
     settings.allowed_extensions.contains
       (wdotless.filename.map Char.toLower) = false ∧
     (validate_documents sniffPdf [] [wdotless]).2 =
       some ⟨415, "Unsupported file type: ".data ++ wdotless.filename⟩) :=
  ⟨(C10_dotless_extension_check sniffPdf []).1,
   ⟨by decide,
    (C10_dotless_extension_check sniffPdf []).2.1 ("txt".data) (by decide)⟩,
   ⟨by decide, by decide, by decide,
    (C10_dotless_extension_check sniffPdf []).2.2 wdotless (by decide)
      (by decide) (by decide)⟩⟩
